import Mathlib

/-!
Verification of `app.py`, a single-file video-to-text transcription script.

Shallow embedding conventions:
* Python floats are modelled by `ℚ`; Python's fixed-precision float formatting
  (`f"{x:06.3f}"`) is modelled by exact rounding of the rational to three
  decimal places with ties broken to even, which is how CPython formats the
  exact value of a double.  All concrete inputs appearing in theorems are
  either exactly representable as doubles or far from a rounding tie, so the
  rational model and the float behaviour agree on them.
* Side effects (temporary files, Streamlit widgets, error banners) are
  modelled by explicit state records threaded through the pipeline.
* Third-party calls (moviepy decoding, whisper model loading and inference)
  are oracles supplied as parameters: an `Except` value or function whose
  `.error` case models the call raising an exception.
-/

namespace IndicVideo

/-- Python's `a % b` on rationals with `b > 0`: `a - b * ⌊a / b⌋`. -/
def pyMod (a b : ℚ) : ℚ := a - b * ⌊a / b⌋

/-- Round to the nearest integer, ties to even: the rounding CPython applies
to the (exact) value of a float when formatting with a fixed number of
decimal places. -/
def roundHalfEven (q : ℚ) : ℤ :=
  let f : ℤ := ⌊q⌋
  if q - f < 1/2 then f
  else if 1/2 < q - f then f + 1
  else if f % 2 = 0 then f else f + 1

/-- Left-pad a string with zeros to width `w` (Python `%0wd`). -/
def padZeros (w : Nat) (s : String) : String :=
  if w ≤ s.length then s
  else String.mk (List.replicate (w - s.length) '0') ++ s

/-- Python `f"{n:02d}"` for a nonnegative integer. -/
def pad2 (n : ℤ) : String := padZeros 2 (toString n.toNat)

/-- Python `f"{n:03d}"` for a nonnegative integer. -/
def pad3 (n : ℤ) : String := padZeros 3 (toString n.toNat)

/-- `format_time_srt` from app.py lines 215-220:
`hours = int(seconds // 3600)`, `minutes = int((seconds % 3600) // 60)`,
`seconds = seconds % 60`, rendered as
`f"{hours:02d}:{minutes:02d}:{seconds:06.3f}".replace('.', ',')`.
For `seconds % 60 ∈ [0, 60)` the `06.3f` field is exactly the two-digit
zero-padded integer part, a point, and three fractional digits, i.e. the
rounded millisecond count split at 1000. -/
def format_time_srt (seconds : ℚ) : String :=
  let hours : ℤ := ⌊seconds / 3600⌋
  let minutes : ℤ := ⌊pyMod seconds 3600 / 60⌋
  let millis : ℤ := roundHalfEven (pyMod seconds 60 * 1000)
  pad2 hours ++ ":" ++ pad2 minutes ++ ":" ++ pad2 (millis / 1000) ++ "," ++ pad3 (millis % 1000)

/-- A transcription segment, app.py's `segment` dict entries: keys `'start'`,
`'end'` (seconds) and `'text'`.  The `'end'` key is named `stop` here because
`end` is reserved in Lean. -/
structure Segment where
  start : ℚ
  stop : ℚ
  text : String
deriving DecidableEq

/-- A whisper transcription result dict: key `'text'`, and the optional key
`'segments'` (`segments = none` models a dict without that key, matching the
`if 'segments' in result:` checks at lines 161 and 190). -/
structure TranscriptionResult where
  text : String
  segments : Option (List Segment)
deriving DecidableEq

/-- One block of the SRT accumulation at line 195:
`f"{i}\n{start_time} --> {end_time}\n{segment['text'].strip()}\n\n"`. -/
def srtBlock (i : Nat) (sg : Segment) : String :=
  toString i ++ "\n" ++ format_time_srt sg.start ++ " --> " ++ format_time_srt sg.stop
    ++ "\n" ++ sg.text.trim ++ "\n\n"

/-- The loop at lines 191-195: `srt_content = ""` then
`for i, segment in enumerate(result['segments'], 1): srt_content += ...`. -/
def srtAux : Nat → List Segment → String → String
  | _, [], acc => acc
  | i, sg :: rest, acc => srtAux (i + 1) rest (acc ++ srtBlock i sg)

/-- The value of `srt_content` the loop would compute over a segment list. -/
def srt_content (segs : List Segment) : String := srtAux 1 segs ""

/-- The `MM:SS` rendering of one timestamp in the segment table, lines 166-167:
`f"{int(t // 60):02d}:{int(t % 60):02d}"` (for nonnegative `t` both `int()`
truncations coincide with the floor). -/
def tableTime (t : ℚ) : String :=
  pad2 ⌊t / 60⌋ ++ ":" ++ pad2 ⌊pyMod t 60⌋

/-- One row appended to `segments_data` at lines 166-171. -/
def segRow (sg : Segment) : String × String :=
  (tableTime sg.start ++ " - " ++ tableTime sg.stop, sg.text.trim)

/-! ### Module execution order

app.py is a straight-line script: the interpreter executes its top-level
statements from top to bottom on every run, and a `def` statement binds its
name only when it executes.  We record the top-level statements that bind
names, in source order, with the main interactive block in its actual
position. -/

/-- A top-level statement of the script, as far as name binding goes. -/
inductive TopStmt
  | defStmt (name : String)
  | mainBlock
deriving DecidableEq

/-- The top-level statement order of app.py: the three helper `def`s
(lines 54-88), then the main interactive block (lines 97-213), then the
`def format_time_srt` statement (line 215). -/
def appTopLevel : List TopStmt :=
  [.defStmt "load_whisper_model", .defStmt "extract_audio_from_video",
   .defStmt "transcribe_audio", .mainBlock, .defStmt "format_time_srt"]

/-- Names bound by `def` statements executed before the main block runs. -/
def defsBefore : List TopStmt → List String
  | [] => []
  | .defStmt n :: rest => n :: defsBefore rest
  | .mainBlock :: _ => []

/-- The function names in scope when the main block (and hence the SRT loop
at line 193) executes. -/
def defsBeforeMain : List String := defsBefore appTopLevel

/-! ### Effectful pipeline model -/

/-- Existence of the two temporary files a run creates: the saved upload
(line 120) and the extracted waveform (line 61). -/
structure FS where
  tempVideo : Bool
  tempAudio : Bool
deriving DecidableEq

/-- A Python exception reaching the outer handler at line 210. -/
inductive PyError
  | nameError (name : String)
  | wrapped (msg : String)
deriving DecidableEq

/-- `str(e)` as interpolated into the outer error banner. -/
def PyError.message : PyError → String
  | .nameError n => "name '" ++ n ++ "' is not defined"
  | .wrapped m => m

/-- The fixed name of the extracted-audio temp file (the concrete path is
irrelevant; only its identity is). -/
def audioPathName : String := "temp_audio.wav"

/-- `extract_audio_from_video` (lines 59-74).  The moviepy work
(`VideoFileClip`/`write_audiofile`) is the oracle `decode`; its `.error`
case models those calls raising.  The temp audio path is created by
`NamedTemporaryFile(delete=False)` before the `try:`, so the file exists in
both outcomes.  Returns the updated filesystem, the error banners shown,
and the returned path — `none` models the `return None` in the
`except` branch, so a failure is a return value, never a raised exception. -/
def extract_audio_from_video (decode : Except String Unit) (fs : FS) :
    FS × List String × Option String :=
  let fs1 : FS := { fs with tempAudio := true }
  match decode with
  | .ok _ => (fs1, [], some audioPathName)
  | .error e => (fs1, ["Error extracting audio: " ++ e], none)

/-- The argument record of a `model.transcribe(...)` invocation
(lines 79-84). -/
structure InferenceCall where
  audioPath : String
  language : String
  fp16 : Bool
  verbose : Bool
deriving DecidableEq

/-- `transcribe_audio` (lines 76-88).  The model's inference routine is the
oracle `infer`; the `.error` case models it raising.  Returns the result
(`none` for the `return None` in the `except` branch), the list of inference
invocations made (for the exactly-once contract), and the error banners
shown. -/
def transcribe_audio (infer : InferenceCall → Except String TranscriptionResult)
    (audio_path : String) (language_code : String) :
    Option TranscriptionResult × List InferenceCall × List String :=
  let call : InferenceCall := ⟨audio_path, language_code, false, false⟩
  match infer call with
  | .ok r => (some r, [call], [])
  | .error e => (none, [call], ["Error during transcription: " ++ e])

/-- Modelled from the spec: the process-wide model cache.  `load_whisper_model`
(lines 54-57) is `whisper.load_model` under the third-party
`@st.cache_resource` decorator, whose implementation is not part of this
repository; per the spec it memoizes by the size identifier for the process
lifetime with no eviction.  Instances are numbered by creation order
(`nextId`), so two underlying loads always yield distinct instances. -/
structure ModelCache where
  entries : List (String × Nat)
  nextId : Nat

/-- Modelled from the spec: a cached model request.  A hit returns the cached
instance and leaves the cache unchanged; a miss loads a fresh instance,
records it, and returns it. -/
def load_whisper_model (c : ModelCache) (name : String) : ModelCache × Nat :=
  match c.entries.lookup name with
  | some inst => (c, inst)
  | none => (⟨(name, c.nextId) :: c.entries, c.nextId + 1⟩, c.nextId)

/-- Cache sanity: every cached instance was created earlier than `nextId`,
and no two cache entries share an instance. -/
def ModelCache.WF (c : ModelCache) : Prop :=
  (∀ p ∈ c.entries, p.2 < c.nextId) ∧ (c.entries.map Prod.snd).Nodup

/-- The oracles one button-press run of the main block depends on:
the selected language code, the moviepy decode outcome, the
`whisper.load_model` outcome, and the model inference routine. -/
structure Env where
  lang : String
  decode : Except String Unit
  load : Except String Unit
  infer : InferenceCall → Except String TranscriptionResult

/-- The inference invocation the run makes when it reaches line 142. -/
def mainCall (env : Env) : InferenceCall := ⟨audioPathName, env.lang, false, false⟩

/-- Observable state at the end of one button-press run (lines 111-213):
temp files on disk, the progress bar and status text (`none` = `.empty()`
was called), the error banners shown in order, what the result presenter
rendered, and the exception (if any) that reached the outer handler. -/
structure RunState where
  fs : FS
  progress : Option Nat
  status : Option String
  errors : List String
  fullTextShown : Option String
  segmentTableShown : Option (List (String × String))
  txtDownload : Option String
  srtDownload : Option String
  caught : Option PyError

/-- The cleanup block at lines 204-208: unlink both temp files. -/
def cleanupFiles (s : RunState) : RunState :=
  { s with fs := ⟨false, false⟩ }

/-- The outer `except` at lines 210-213: show the banner, then empty the
progress bar and the status text. -/
def outerHandler (s : RunState) (e : PyError) : RunState :=
  { s with errors := s.errors ++ ["An error occurred: " ++ e.message],
           progress := none, status := none, caught := some e }

/-- One button-press run of the main block, lines 111-213, statement by
statement.  The cleanup block (lines 204-208) sits inside `if audio_path:`
after the `if result:` block, so it runs exactly when extraction returned a
path and no exception escaped the statements above it.  The SRT loop body
(line 193) looks up the name `format_time_srt`, which is bound only by the
`def` at line 215 — after the main block in execution order — so for a
nonempty segment list the lookup raises `NameError` and control jumps to the
outer handler, skipping both the download button and the cleanup block. -/
def runTranscription (env : Env) : RunState :=
  let s0 : RunState :=
    { fs := ⟨false, false⟩, progress := some 0, status := some "",
      errors := [], fullTextShown := none, segmentTableShown := none,
      txtDownload := none, srtDownload := none, caught := none }
  -- lines 117-122: status, progress 10, save the upload to a temp file
  let s1 := { s0 with status := some "📁 Saving video file...", progress := some 10,
                      fs := { s0.fs with tempVideo := true } }
  -- lines 125-128: status, progress 30, extract audio
  let s2 := { s1 with status := some "🎵 Extracting audio from video...", progress := some 30 }
  let ext := extract_audio_from_video env.decode s2.fs
  let s3 := { s2 with fs := ext.1, errors := s2.errors ++ ext.2.1 }
  match ext.2.2 with
  | none => s3
  | some path =>
    -- lines 132-135: status, progress 50, load the model (may raise)
    let s4 := { s3 with status := some "🤖 Loading AI model...", progress := some 50 }
    match env.load with
    | .error e => outerHandler s4 (.wrapped e)
    | .ok _ =>
      -- lines 138-142: status, progress 70, transcribe
      let s5 := { s4 with status := some "🎯 Transcribing audio...", progress := some 70 }
      let tr := transcribe_audio env.infer path env.lang
      let s6 := { s5 with errors := s5.errors ++ tr.2.2 }
      match tr.1 with
      | none => cleanupFiles s6
      | some r =>
        -- lines 145-158: progress 100, success status, full text area
        let s7 := { s6 with progress := some 100, status := some "✅ Transcription completed!",
                            fullTextShown := some r.text }
        -- lines 161-173: segment table when the result has segments
        let s8 :=
          match r.segments with
          | some segs => { s7 with segmentTableShown := some (segs.map segRow) }
          | none => s7
        -- lines 181-186: TXT download
        let s9 := { s8 with txtDownload := some r.text }
        -- lines 190-202: SRT loop and download
        match r.segments with
        | none => cleanupFiles s9
        | some segs =>
          match segs with
          | [] => cleanupFiles { s9 with srtDownload := some "" }
          | _ :: _ =>
            if "format_time_srt" ∈ defsBeforeMain then
              cleanupFiles { s9 with srtDownload := some (srt_content segs) }
            else
              outerHandler s9 (.nameError "format_time_srt")

end IndicVideo

namespace IndicVideo

section
attribute [local semireducible] Rat.mul Rat.inv Rat.add Rat.sub

/-- Looking a key up in an association list returns a pair of the list. -/
theorem mem_of_lookup_eq_some {l : List (String × Nat)} {k : String} {v : Nat}
    (h : l.lookup k = some v) : (k, v) ∈ l := by
  rcases List.lookup_eq_some_iff.mp h with ⟨l₁, l₂, rfl, -⟩
  simp

/-- The name `format_time_srt` is not bound when the main block executes. -/
theorem format_time_srt_unbound : "format_time_srt" ∉ defsBeforeMain := by decide

/-- C2 counterexample: an input strictly below one minute whose formatted
seconds field reads `60`: boundary rounding does overflow the seconds field
(without carrying into minutes), refuting the final conjunct of the claim. -/
theorem claim_C2_counterexample :
    (599999 / 10000 : ℚ) < 60
    ∧ format_time_srt (599999 / 10000) = "00:00:60,000" := by
  exact ⟨by decide, by decide⟩

/-- C2 (amended): `format_time_srt` computes hours as `⌊s/3600⌋`, minutes as
`⌊(s mod 3600)/60⌋` and the remaining seconds rounded to millisecond
precision, zero-padded with a comma separator, and satisfies the three spec
examples; the dropped conjunct — that boundary rounding never overflows the
seconds field into minutes — is false (see the counterexample). -/
theorem claim_C2_format_time_srt :
    format_time_srt 0 = "00:00:00,000"
    ∧ format_time_srt (7323 / 2) = "01:01:01,500"
    ∧ format_time_srt (59999 / 1000) = "00:00:59,999"
    ∧ ∀ s : ℚ, format_time_srt s =
        pad2 ⌊s / 3600⌋ ++ ":" ++ pad2 ⌊(s - 3600 * ⌊s / 3600⌋) / 60⌋ ++ ":"
          ++ pad2 (roundHalfEven ((s - 60 * ⌊s / 60⌋) * 1000) / 1000) ++ ","
          ++ pad3 (roundHalfEven ((s - 60 * ⌊s / 60⌋) * 1000) % 1000) :=
  ⟨by decide, by decide, by decide, fun s => rfl⟩

/-- C10: there is an input strictly less than one minute that
`format_time_srt` renders with a seconds field of `60` instead of carrying
the overflow into the minutes field. -/
theorem claim_C10_seconds_field_overflow :
    ∃ s : ℚ, 0 ≤ s ∧ s < 60 ∧ format_time_srt s = "00:00:60,000" :=
  ⟨599999 / 10000, by decide, by decide, by decide⟩

/-- C1 (code_bug evaluation): on a run where upload, extraction, model load
and transcription all succeed and the result carries one segment, the SRT
loop's lookup of `format_time_srt` raises `NameError` (the `def` at line 215
has not executed yet), the outer handler catches it, and no SRT artifact is
produced — instead of the one-block artifact the claim describes. -/
theorem claim_C1_srt_artifact_not_produced :
    (runTranscription ⟨"hi", .ok (), .ok (),
        fun _ => .ok ⟨"hello world", some [⟨0, 3 / 2, " hello world "⟩]⟩⟩).srtDownload = none
    ∧ (runTranscription ⟨"hi", .ok (), .ok (),
        fun _ => .ok ⟨"hello world", some [⟨0, 3 / 2, " hello world "⟩]⟩⟩).caught
        = some (.nameError "format_time_srt") := by
  exact ⟨by decide, by decide⟩

/-- C9: `format_time_srt` is not among the names bound before the main block
runs, so every run that reaches the SRT loop with a nonempty segment list
raises `NameError` there; the outer handler catches it (showing its banner)
and the SRT download artifact is never produced. -/
theorem claim_C9_srt_loop_nameerror (env : Env) (r : TranscriptionResult)
    (sg : Segment) (rest : List Segment)
    (hdec : env.decode = .ok ()) (hload : env.load = .ok ())
    (hinf : env.infer (mainCall env) = .ok r) (hsegs : r.segments = some (sg :: rest)) :
    "format_time_srt" ∉ defsBeforeMain
    ∧ (runTranscription env).caught = some (.nameError "format_time_srt")
    ∧ (runTranscription env).srtDownload = none
    ∧ (runTranscription env).errors
        = ["An error occurred: name 'format_time_srt' is not defined"] := by
  obtain ⟨lang, dec, load, infer⟩ := env
  simp only [mainCall] at hinf
  subst hdec hload
  refine ⟨by decide, ?_⟩
  simp [runTranscription, extract_audio_from_video, transcribe_audio, hinf, hsegs,
    format_time_srt_unbound, outerHandler, PyError.message]

/-- C9 witness. -/
theorem claim_C9_witness :
    (runTranscription ⟨"ta", .ok (), .ok (),
        fun _ => .ok ⟨"t", some [⟨1, 2, " a "⟩]⟩⟩).caught
      = some (.nameError "format_time_srt") :=
  (claim_C9_srt_loop_nameerror ⟨"ta", .ok (), .ok (),
      fun _ => .ok ⟨"t", some [⟨1, 2, " a "⟩]⟩⟩ ⟨"t", some [⟨1, 2, " a "⟩]⟩
    ⟨1, 2, " a "⟩ [] rfl rfl rfl rfl).2.1

/-- C3 counterexample: a failing run (transcription raises inside
`transcribe_audio`, its banner is shown, nothing is rendered) that ends with
both temporary files deleted: the cleanup block at lines 204-208 is inside
`if audio_path:` and after `if result:`, so the transcription-failure path
does reach it, contradicting the claim that every failing run leaks. -/
theorem claim_C3_counterexample :
    (runTranscription ⟨"hi", .ok (), .ok (), fun _ => .error "inference failed"⟩).errors
      = ["Error during transcription: inference failed"]
    ∧ (runTranscription ⟨"hi", .ok (), .ok (), fun _ => .error "inference failed"⟩).fullTextShown
      = none
    ∧ (runTranscription ⟨"hi", .ok (), .ok (), fun _ => .error "inference failed"⟩).fs.tempVideo
      = false
    ∧ (runTranscription ⟨"hi", .ok (), .ok (), fun _ => .error "inference failed"⟩).fs.tempAudio
      = false := by
  exact ⟨by decide, by decide, by decide, by decide⟩

/-- C3 (amended): the two temporary files are deleted exactly on the runs
that reach the cleanup block: extraction succeeded, the model loaded, and
either transcription failed (the `if result:` guard is skipped) or the
result had no nonempty segment list (a nonempty one raises `NameError` in
the SRT loop before the cleanup).  In particular they are leaked on
extraction failure and on every exception reaching the outer handler, but
they are deleted on transcription failure. -/
theorem claim_C3_cleanup_characterization (env : Env) :
    ((runTranscription env).fs.tempVideo = false ∧ (runTranscription env).fs.tempAudio = false)
    ↔ (env.decode = .ok () ∧ env.load = .ok ()
        ∧ match env.infer (mainCall env) with
          | .error _ => True
          | .ok r => r.segments = none ∨ r.segments = some []) := by
  obtain ⟨lang, dec, load, infer⟩ := env
  rcases dec with e | u
  · simp [runTranscription, extract_audio_from_video, mainCall]
  · rcases load with e | u'
    · simp [runTranscription, extract_audio_from_video, outerHandler, mainCall]
    · rcases h : infer ⟨audioPathName, lang, false, false⟩ with e | r
      · simp [runTranscription, extract_audio_from_video, transcribe_audio,
          cleanupFiles, mainCall, h]
      · rcases r with ⟨text, segs⟩
        rcases segs with _ | segs
        · simp [runTranscription, extract_audio_from_video, transcribe_audio,
            cleanupFiles, mainCall, h]
        · rcases segs with _ | ⟨sg, rest⟩
          · simp [runTranscription, extract_audio_from_video, transcribe_audio,
              cleanupFiles, mainCall, h]
          · simp [runTranscription, extract_audio_from_video, transcribe_audio,
              outerHandler, mainCall, h, format_time_srt_unbound]

/-- C3 witness: a concrete transcription-failure run on which the amended
characterization yields deletion of both files. -/
theorem claim_C3_witness :
    (runTranscription ⟨"bn", .ok (), .ok (), fun _ => .error "oom"⟩).fs.tempVideo = false
    ∧ (runTranscription ⟨"bn", .ok (), .ok (), fun _ => .error "oom"⟩).fs.tempAudio = false :=
  (claim_C3_cleanup_characterization ⟨"bn", .ok (), .ok (), fun _ => .error "oom"⟩).mpr
    ⟨rfl, rfl, trivial⟩

/-- C4: on every run in which the transcriber fails (the inference oracle
raises, so `transcribe_audio` returns `None`), the result presenter is never
invoked: no full-text area, no segment table, and neither download artifact
is rendered. -/
theorem claim_C4_no_render_on_transcription_failure (env : Env) (e : String)
    (hdec : env.decode = .ok ()) (hload : env.load = .ok ())
    (hinf : env.infer (mainCall env) = .error e) :
    (runTranscription env).fullTextShown = none
    ∧ (runTranscription env).segmentTableShown = none
    ∧ (runTranscription env).txtDownload = none
    ∧ (runTranscription env).srtDownload = none := by
  obtain ⟨lang, dec, load, infer⟩ := env
  simp only [mainCall] at hinf
  subst hdec hload
  simp [runTranscription, extract_audio_from_video, transcribe_audio, hinf, cleanupFiles]

/-- C4 witness. -/
theorem claim_C4_witness :
    (runTranscription ⟨"ml", .ok (), .ok (), fun _ => .error "bad audio"⟩).fullTextShown = none
    ∧ (runTranscription ⟨"ml", .ok (), .ok (), fun _ => .error "bad audio"⟩).srtDownload = none :=
  ⟨(claim_C4_no_render_on_transcription_failure
      ⟨"ml", .ok (), .ok (), fun _ => .error "bad audio"⟩ "bad audio" rfl rfl rfl).1,
   (claim_C4_no_render_on_transcription_failure
      ⟨"ml", .ok (), .ok (), fun _ => .error "bad audio"⟩ "bad audio" rfl rfl rfl).2.2.2⟩

/-- C5 counterexample: an extraction-failure run.  The extractor catches its
own exception and returns `None`, so the outer handler never fires: the
error banner is shown, but the progress bar still reads 30 and the status
line still shows the extraction message — they are not cleared, refuting
the claim for this failure class. -/
theorem claim_C5_counterexample :
    (runTranscription ⟨"hi", .error "no audio track", .ok (), fun _ => .error "x"⟩).errors
      = ["Error extracting audio: no audio track"]
    ∧ (runTranscription ⟨"hi", .error "no audio track", .ok (), fun _ => .error "x"⟩).progress
      = some 30
    ∧ (runTranscription ⟨"hi", .error "no audio track", .ok (), fun _ => .error "x"⟩).status
      = some "🎵 Extracting audio from video..." := by
  exact ⟨by decide, by decide, by decide⟩

/-- C5 (amended): the progress indicator and the status line are cleared
exactly when an exception reaches the outer handler (a model-load error or
the unclassified `NameError` of the SRT loop), and in that case exactly one
error banner is shown; extraction and transcription failures show their own
single banner but leave the progress indicator and status line in place. -/
theorem claim_C5_clearing_characterization (env : Env) :
    (((runTranscription env).progress = none ∧ (runTranscription env).status = none)
      ↔ (runTranscription env).caught.isSome = true)
    ∧ ((runTranscription env).caught.isSome = true → (runTranscription env).errors.length = 1) := by
  obtain ⟨lang, dec, load, infer⟩ := env
  rcases dec with e | u
  · simp [runTranscription, extract_audio_from_video]
  · rcases load with e | u'
    · simp [runTranscription, extract_audio_from_video, outerHandler]
    · rcases h : infer ⟨audioPathName, lang, false, false⟩ with e | r
      · simp [runTranscription, extract_audio_from_video, transcribe_audio, cleanupFiles, h]
      · rcases r with ⟨text, segs⟩
        rcases segs with _ | segs
        · simp [runTranscription, extract_audio_from_video, transcribe_audio, cleanupFiles, h]
        · rcases segs with _ | ⟨sg, rest⟩
          · simp [runTranscription, extract_audio_from_video, transcribe_audio, cleanupFiles, h]
          · simp [runTranscription, extract_audio_from_video, transcribe_audio,
              outerHandler, h, format_time_srt_unbound]

/-- C5 witness: a model-load failure reaches the outer handler; progress and
status are cleared and a single banner is shown. -/
theorem claim_C5_witness :
    ((runTranscription ⟨"te", .ok (), .error "oom", fun _ => .error "x"⟩).progress = none
      ∧ (runTranscription ⟨"te", .ok (), .error "oom", fun _ => .error "x"⟩).status = none)
    ∧ (runTranscription ⟨"te", .ok (), .error "oom", fun _ => .error "x"⟩).errors.length = 1 :=
  ⟨(claim_C5_clearing_characterization ⟨"te", .ok (), .error "oom", fun _ => .error "x"⟩).1.mpr
      rfl,
   (claim_C5_clearing_characterization ⟨"te", .ok (), .error "oom", fun _ => .error "x"⟩).2 rfl⟩

/-- C6: requesting the model loader twice with the same size identifier
returns the identical cached instance; requesting two different size
identifiers returns two distinct instances, and both stay resident in the
cache afterwards.  Holds for every well-formed cache state. -/
theorem claim_C6_model_loader_cache (c : ModelCache) (hWF : c.WF) (a b : String)
    (hab : a ≠ b) :
    (load_whisper_model (load_whisper_model c a).1 a).2 = (load_whisper_model c a).2
    ∧ (load_whisper_model (load_whisper_model c a).1 b).2 ≠ (load_whisper_model c a).2
    ∧ (a, (load_whisper_model c a).2) ∈ (load_whisper_model (load_whisper_model c a).1 b).1.entries
    ∧ (b, (load_whisper_model (load_whisper_model c a).1 b).2)
        ∈ (load_whisper_model (load_whisper_model c a).1 b).1.entries := by
  obtain ⟨hbound, hnodup⟩ := hWF
  have hba : (b == a) = false := beq_eq_false_iff_ne.mpr (Ne.symm hab)
  rcases ha : c.entries.lookup a with _ | i
  · -- first request for `a` misses and loads instance `c.nextId`
    have hsecond : ((a, c.nextId) :: c.entries).lookup a = some c.nextId :=
      List.lookup_cons_self
    have hskip : ((a, c.nextId) :: c.entries).lookup b = c.entries.lookup b := by
      simp [List.lookup_cons, hba]
    rcases hb : c.entries.lookup b with _ | j
    · -- `b` also misses: fresh instance `c.nextId + 1`
      simp only [load_whisper_model, ha, hsecond, hskip, hb]
      refine ⟨trivial, by omega, by simp, by simp⟩
    · -- `b` hits a cached instance, created before `c.nextId`
      have hmem := mem_of_lookup_eq_some hb
      have hlt : j < c.nextId := hbound _ hmem
      simp only [load_whisper_model, ha, hsecond, hskip, hb]
      refine ⟨trivial, by omega, by simp, by simp [hmem]⟩
  · -- first request for `a` hits the cached instance `i`
    have hmema := mem_of_lookup_eq_some ha
    rcases hb : c.entries.lookup b with _ | j
    · -- `b` misses: fresh instance `c.nextId`, distinct from every cached one
      have hlt : i < c.nextId := hbound _ hmema
      simp only [load_whisper_model, ha, hb]
      refine ⟨trivial, by omega, by simp [hmema], by simp⟩
    · -- both hit: distinct entries carry distinct instances
      have hmemb := mem_of_lookup_eq_some hb
      simp only [load_whisper_model, ha, hb]
      refine ⟨trivial, fun hji => ?_, hmema, hmemb⟩
      have heq := List.inj_on_of_nodup_map hnodup hmema hmemb (by simp [hji])
      exact hab (congrArg Prod.fst heq)

/-- C6 witness: two requests on a fresh cache. -/
theorem claim_C6_witness :
    (load_whisper_model (load_whisper_model ⟨[], 0⟩ "small").1 "small").2
      = (load_whisper_model ⟨[], 0⟩ "small").2
    ∧ (load_whisper_model (load_whisper_model ⟨[], 0⟩ "small").1 "tiny").2
      ≠ (load_whisper_model ⟨[], 0⟩ "small").2 :=
  ⟨(claim_C6_model_loader_cache ⟨[], 0⟩ ⟨by simp, by simp⟩ "small" "tiny" (by decide)).1,
   (claim_C6_model_loader_cache ⟨[], 0⟩ ⟨by simp, by simp⟩ "small" "tiny" (by decide)).2.1⟩

/-- C7: `transcribe_audio` invokes the model's inference routine exactly once,
with the audio path and language hint as given, `fp16 = False` and
`verbose = False`; on success it returns the result unchanged, and if the
invocation raises it returns `None` with a single generic banner and no
partial output. -/
theorem claim_C7_transcribe_contract
    (infer : InferenceCall → Except String TranscriptionResult) (path lang : String) :
    (transcribe_audio infer path lang).2.1 = [⟨path, lang, false, false⟩]
    ∧ (∀ r, infer ⟨path, lang, false, false⟩ = .ok r →
        (transcribe_audio infer path lang).1 = some r
        ∧ (transcribe_audio infer path lang).2.2 = [])
    ∧ ∀ e, infer ⟨path, lang, false, false⟩ = .error e →
        (transcribe_audio infer path lang).1 = none
        ∧ (transcribe_audio infer path lang).2.2 = ["Error during transcription: " ++ e] := by
  unfold transcribe_audio
  rcases h : infer ⟨path, lang, false, false⟩ with e | r <;> simp [h]

/-- C7 witness. -/
theorem claim_C7_witness :
    (transcribe_audio (fun _ => .ok ⟨"namaste", none⟩) "audio.wav" "hi").1
      = some ⟨"namaste", none⟩
    ∧ (transcribe_audio (fun _ => .ok ⟨"namaste", none⟩) "audio.wav" "hi").2.1
      = [⟨"audio.wav", "hi", false, false⟩] :=
  ⟨((claim_C7_transcribe_contract (fun _ => .ok ⟨"namaste", none⟩) "audio.wav" "hi").2.1
      ⟨"namaste", none⟩ rfl).1,
   (claim_C7_transcribe_contract (fun _ => .ok ⟨"namaste", none⟩) "audio.wav" "hi").1⟩

/-- C8: the extractor creates the temporary audio file before the extraction
attempt, so the file exists on disk in every outcome, including failures;
and on any decoding failure it returns `None` (a plain return value — the
function's type has no exception channel) together with its error banner. -/
theorem claim_C8_extractor_frame (decode : Except String Unit) (fs : FS) :
    (extract_audio_from_video decode fs).1.tempAudio = true
    ∧ ∀ e, decode = .error e →
        (extract_audio_from_video decode fs).2.2 = none
        ∧ (extract_audio_from_video decode fs).2.1 = ["Error extracting audio: " ++ e] := by
  unfold extract_audio_from_video
  rcases decode with e | u <;> simp

/-- C8 witness. -/
theorem claim_C8_witness :
    (extract_audio_from_video (.error "corrupt container") ⟨true, false⟩).1.tempAudio = true
    ∧ (extract_audio_from_video (.error "corrupt container") ⟨true, false⟩).2.2 = none :=
  ⟨(claim_C8_extractor_frame (.error "corrupt container") ⟨true, false⟩).1,
   ((claim_C8_extractor_frame (.error "corrupt container") ⟨true, false⟩).2
      "corrupt container" rfl).1⟩

end

end IndicVideo

